import Mathlib

/-!
Verification of the work-item CRUD service (Express router over a Mongoose
model, files `src/models/work.model.js` and `src/index.js`).

The embedding models the external document store as a list of documents in
insertion order together with a counter for freshly assigned identifiers.
Each route handler of the router is translated into a Lean function from the
store and the request data to a `HandlerResult` recording the store after the
request, the ordered list of response attempts the handler makes, the store
operations it performs, and whether an error escaped the handler uncaught.
Express delivers only the first response attempt to the client; a later
attempt on the same request throws (headers already sent), which is how the
delete handler's missing early return after its 404 branch is modelled.
-/

namespace SwaggerDocs

/-- A request-path identifier: either syntactically valid for the backing
store (modelled as carrying a numeric key) or malformed, on which the store
primitives throw a cast error. -/
inductive ReqId where
  | valid (n : Nat)
  | malformed (s : String)
deriving DecidableEq, Repr

/-- A persisted work item: `workSchema` has required `title` and
`description`; `id` is assigned by the store on creation. -/
structure WorkItem where
  id : Nat
  title : String
  description : String
deriving DecidableEq, Repr

/-- The backing collection: documents in insertion order plus the next fresh
identifier. -/
structure Store where
  items : List WorkItem
  nextId : Nat
deriving DecidableEq, Repr

/-- Errors thrown by the store layer: a cast error on a malformed identifier,
a validation error when a required field is missing. -/
inductive StoreError where
  | castError
  | validationError
deriving DecidableEq, Repr

/-- JSON response bodies produced by the handlers. -/
inductive Body where
  | items (ws : List WorkItem)
  | item (w : Option WorkItem)
  | messageOnly (msg : String)
  | messageWork (msg : String) (w : Option WorkItem)
deriving DecidableEq, Repr

/-- An HTTP response: status code and JSON body. -/
structure Response where
  status : Nat
  body : Body
deriving DecidableEq, Repr

/-- The store operations a handler can perform, for tracing which database
calls a request executes. -/
inductive StoreOp where
  | findAll
  | findById (i : ReqId)
  | saveNew
  | findByIdAndDelete (i : ReqId)
  | findByIdAndUpdate (i : ReqId)
  | docSave
deriving DecidableEq, Repr

/-- Outcome of one handler invocation: resulting store, every response
attempt in order (Express delivers only the first), the trace of store
operations, and whether an error escaped the handler uncaught. -/
structure HandlerResult where
  store : Store
  attempts : List Response
  ops : List StoreOp
  uncaught : Bool
deriving DecidableEq, Repr

/-- The response the client observes: the first attempt, if any. -/
def HandlerResult.observed (r : HandlerResult) : Option Response :=
  r.attempts.head?

/-- Does a stored document match a request key. -/
def matchesId (n : Nat) (w : WorkItem) : Bool :=
  w.id == n

/-- `Work.find` with an empty filter: all documents in store order. -/
def Work.find (s : Store) : List WorkItem :=
  s.items

/-- `Work.findById`: throws a cast error on a malformed identifier, otherwise
the matching document or null. -/
def Work.findById (s : Store) : ReqId → Except StoreError (Option WorkItem)
  | .malformed _ => .error .castError
  | .valid n => .ok (s.items.find? (matchesId n))

/-- `new Work({title, description}).save()`: the `required: true` validator
on a String path demands a present value of nonzero length — the empty
string is rejected just like a missing field. On success it persists a
document under a fresh identifier and returns it. -/
def Work.saveNew (s : Store) (t d : Option String) :
    Except StoreError (Store × WorkItem) :=
  match t, d with
  | some t, some d =>
    if t.length == 0 || d.length == 0 then .error .validationError
    else
      let w : WorkItem := ⟨s.nextId, t, d⟩
      .ok (⟨s.items ++ [w], s.nextId + 1⟩, w)
  | _, _ => .error .validationError

/-- `Work.findByIdAndDelete`: throws on a malformed identifier, otherwise
removes the matching document (a no-op when absent) and returns it. -/
def Work.findByIdAndDelete (s : Store) :
    ReqId → Except StoreError (Store × Option WorkItem)
  | .malformed _ => .error .castError
  | .valid n =>
    .ok (⟨s.items.eraseP (matchesId n), s.nextId⟩, s.items.find? (matchesId n))

/-- Apply a request body to a document: Mongoose strips absent fields from an
update, so only the provided fields are replaced. -/
def applyBody (t d : Option String) (w : WorkItem) : WorkItem :=
  { w with title := t.getD w.title, description := d.getD w.description }

/-- Replace the first element satisfying `p` by its image under `f`. -/
def updateFirst (p : α → Bool) (f : α → α) : List α → List α
  | [] => []
  | x :: xs => if p x then f x :: xs else x :: updateFirst p f xs

/-- `Work.findByIdAndUpdate(id, {title, description})`: throws on a malformed
identifier, otherwise replaces the provided fields of the matching document
and returns the document as it was before the update (no `new: true`). -/
def Work.findByIdAndUpdate (s : Store) (t d : Option String) :
    ReqId → Except StoreError (Store × Option WorkItem)
  | .malformed _ => .error .castError
  | .valid n =>
    .ok (⟨updateFirst (matchesId n) (applyBody t d) s.items, s.nextId⟩,
         s.items.find? (matchesId n))

/-- `router.get("/works")`: list all documents, respond 200. -/
def getWorksHandler (s : Store) : HandlerResult :=
  ⟨s, [⟨200, .items (Work.find s)⟩], [.findAll], false⟩

/-- `router.get("/works/:id")`: fetch by id and respond 200 with the result,
null included. There is no try/catch, so a thrown cast error escapes the
handler uncaught and no response is sent. -/
def getWorkByIdHandler (s : Store) (i : ReqId) : HandlerResult :=
  match Work.findById s i with
  | .error _ => ⟨s, [], [.findById i], true⟩
  | .ok w => ⟨s, [⟨200, .item w⟩], [.findById i], false⟩

/-- `router.post("/works")`: build a document from the body and save it;
200 with the new document on success, 500 with a fixed message when the save
throws (missing required field). -/
def postWorkHandler (s : Store) (t d : Option String) : HandlerResult :=
  match Work.saveNew s t d with
  | .ok (s', w) =>
    ⟨s', [⟨200, .messageWork "new work created" (some w)⟩], [.saveNew], false⟩
  | .error _ =>
    ⟨s, [⟨500, .messageOnly "unable to create new work"⟩], [.saveNew], false⟩

/-- `router.delete("/works/:id")`: fetch the document; when absent, respond
404 but do not return, so the handler still runs `findByIdAndDelete` and then
attempts a 200 response, which throws (headers already sent); the catch block
then attempts a 500 response, which throws again and escapes uncaught. When
present, delete it and respond 200 with the pre-delete document. A cast error
from `findById` is caught and answered with 500. -/
def deleteWorkHandler (s : Store) (i : ReqId) : HandlerResult :=
  match Work.findById s i with
  | .error _ =>
    ⟨s, [⟨500, .messageOnly "unable to delete work"⟩], [.findById i], false⟩
  | .ok none =>
    match Work.findByIdAndDelete s i with
    | .error _ =>
      ⟨s, [⟨404, .messageOnly "work not found"⟩,
           ⟨500, .messageOnly "unable to delete work"⟩],
       [.findById i, .findByIdAndDelete i], false⟩
    | .ok (s', _) =>
      ⟨s', [⟨404, .messageOnly "work not found"⟩,
            ⟨200, .messageWork "work deleted" none⟩,
            ⟨500, .messageOnly "unable to delete work"⟩],
       [.findById i, .findByIdAndDelete i], true⟩
  | .ok (some w) =>
    match Work.findByIdAndDelete s i with
    | .error _ =>
      ⟨s, [⟨500, .messageOnly "unable to delete work"⟩],
       [.findById i, .findByIdAndDelete i], false⟩
    | .ok (s', _) =>
      ⟨s', [⟨200, .messageWork "work deleted" (some w)⟩],
       [.findById i, .findByIdAndDelete i], false⟩

/-- `router.put("/works/:id")`: fetch the document; respond 404 and return
when absent; otherwise run `findByIdAndUpdate` with the body fields, save the
returned (pre-update) document — a no-op, since no path on it was modified —
and respond 200 with that pre-update document. Errors are caught and answered
with 500; saving a null document would throw, hence the null guard branch. -/
def putWorkHandler (s : Store) (i : ReqId) (t d : Option String) :
    HandlerResult :=
  match Work.findById s i with
  | .error _ =>
    ⟨s, [⟨500, .messageOnly "unable to update work"⟩], [.findById i], false⟩
  | .ok none =>
    ⟨s, [⟨404, .messageOnly "no book found"⟩], [.findById i], false⟩
  | .ok (some _) =>
    match Work.findByIdAndUpdate s t d i with
    | .error _ =>
      ⟨s, [⟨500, .messageOnly "unable to update work"⟩],
       [.findById i, .findByIdAndUpdate i], false⟩
    | .ok (s', none) =>
      ⟨s', [⟨500, .messageOnly "unable to update work"⟩],
       [.findById i, .findByIdAndUpdate i], false⟩
    | .ok (s', some w0) =>
      ⟨s', [⟨200, .item (some w0)⟩],
       [.findById i, .findByIdAndUpdate i, .docSave], false⟩

/-! ### Helper lemmas -/

lemma find?_updateFirst (p : α → Bool) (f : α → α)
    (hf : ∀ a, p (f a) = p a) (l : List α) :
    (updateFirst p f l).find? p = (l.find? p).map f := by
  induction l with
  | nil => rfl
  | cons x xs ih =>
    by_cases hx : p x = true
    · simp [updateFirst, hx, hf, List.find?_cons_of_pos]
    · have hx' : p x = false := by simpa using hx
      simp [updateFirst, hx', ih, List.find?_cons_of_neg]

lemma map_updateFirst (g : α → β) (p : α → Bool) (f : α → α)
    (hg : ∀ a, g (f a) = g a) (l : List α) :
    (updateFirst p f l).map g = l.map g := by
  induction l with
  | nil => rfl
  | cons x xs ih =>
    by_cases hx : p x = true
    · simp [updateFirst, hx, hg]
    · have hx' : p x = false := by simpa using hx
      simp [updateFirst, hx', ih]

lemma length_ne_zero_of_ne_empty (s : String) (h : s ≠ "") :
    s.length ≠ 0 := by
  intro h0
  apply h
  cases s with
  | mk data =>
    rw [String.length_mk, List.length_eq_zero] at h0
    rw [h0]

lemma saveNew_ok (s : Store) (t d : String) (ht : t ≠ "") (hd : d ≠ "") :
    Work.saveNew s (some t) (some d) =
      .ok (⟨s.items ++ [⟨s.nextId, t, d⟩], s.nextId + 1⟩,
           ⟨s.nextId, t, d⟩) := by
  have ht' : (t.length == 0) = false := by
    simpa using length_ne_zero_of_ne_empty t ht
  have hd' : (d.length == 0) = false := by
    simpa using length_ne_zero_of_ne_empty d hd
  simp [Work.saveNew, ht', hd']

lemma deleteWorkHandler_missing (s : Store) (n : Nat)
    (h : s.items.find? (matchesId n) = none) :
    deleteWorkHandler s (.valid n) =
      ⟨s, [⟨404, .messageOnly "work not found"⟩,
           ⟨200, .messageWork "work deleted" none⟩,
           ⟨500, .messageOnly "unable to delete work"⟩],
       [.findById (.valid n), .findByIdAndDelete (.valid n)], true⟩ := by
  have he : s.items.eraseP (matchesId n) = s.items := by
    apply List.eraseP_of_forall_not
    intro a ha
    simpa using List.find?_eq_none.mp h a ha
  simp [deleteWorkHandler, Work.findById, Work.findByIdAndDelete, h, he]

/-! ### Claims -/

/-- C9: `findById` on a syntactically malformed id fails with a cast error
(the malformed-identifier condition), and since the GET-by-id handler has no
try/catch this error escapes the handler uncaught: no response is attempted
and the uncaught flag is set. -/
theorem c9_get_by_id_malformed_uncaught (s : Store) (str : String) :
    Work.findById s (.malformed str) = .error .castError ∧
    getWorkByIdHandler s (.malformed str) =
      ⟨s, [], [.findById (.malformed str)], true⟩ :=
  ⟨rfl, rfl⟩

/-- C1: GET-by-id on a syntactically valid id that is absent from the store
responds 200 with a null body rather than a 404, and on an id that is present
responds 200 with that item. -/
theorem c1_get_by_id_absent_null_present_item (s : Store) (n : Nat) :
    (s.items.find? (matchesId n) = none →
      getWorkByIdHandler s (.valid n) =
        ⟨s, [⟨200, .item none⟩], [.findById (.valid n)], false⟩) ∧
    (∀ w, s.items.find? (matchesId n) = some w →
      getWorkByIdHandler s (.valid n) =
        ⟨s, [⟨200, .item (some w)⟩], [.findById (.valid n)], false⟩) := by
  constructor
  · intro h
    simp [getWorkByIdHandler, Work.findById, h]
  · intro w h
    simp [getWorkByIdHandler, Work.findById, h]

/-- Witness for C1 at a one-element store: id 5 is absent and yields 200 with
null, id 0 is present and yields 200 with the stored item. -/
theorem c1_witness :
    getWorkByIdHandler ⟨[⟨0, "a", "b"⟩], 1⟩ (.valid 5) =
      ⟨⟨[⟨0, "a", "b"⟩], 1⟩, [⟨200, .item none⟩],
       [.findById (.valid 5)], false⟩ ∧
    getWorkByIdHandler ⟨[⟨0, "a", "b"⟩], 1⟩ (.valid 0) =
      ⟨⟨[⟨0, "a", "b"⟩], 1⟩, [⟨200, .item (some ⟨0, "a", "b"⟩)⟩],
       [.findById (.valid 0)], false⟩ :=
  ⟨(c1_get_by_id_absent_null_present_item ⟨[⟨0, "a", "b"⟩], 1⟩ 5).1 rfl,
   (c1_get_by_id_absent_null_present_item ⟨[⟨0, "a", "b"⟩], 1⟩ 0).2
     ⟨0, "a", "b"⟩ rfl⟩

/-- C3: DELETE on a syntactically valid id that is absent from the store: the
client-observed response (the first one sent) is the 404, the collection is
unchanged, repeating the DELETE observes the 404 again, and the observed
response never has status 200. -/
theorem c3_delete_missing_observes_404 (s : Store) (n : Nat)
    (h : s.items.find? (matchesId n) = none) :
    (deleteWorkHandler s (.valid n)).observed =
      some ⟨404, .messageOnly "work not found"⟩ ∧
    (deleteWorkHandler s (.valid n)).store = s ∧
    (deleteWorkHandler (deleteWorkHandler s (.valid n)).store
        (.valid n)).observed = some ⟨404, .messageOnly "work not found"⟩ ∧
    (∀ r, (deleteWorkHandler s (.valid n)).observed = some r →
      r.status ≠ 200) := by
  have hd := deleteWorkHandler_missing s n h
  refine ⟨?_, ?_, ?_, ?_⟩
  · simp [hd, HandlerResult.observed]
  · simp [hd]
  · rw [hd]
    simp [deleteWorkHandler_missing s n h, HandlerResult.observed]
  · intro r hr
    rw [hd] at hr
    simp [HandlerResult.observed] at hr
    simp [← hr]

/-- Witness for C3 at a one-element store with the absent id 5. -/
theorem c3_witness :
    (deleteWorkHandler ⟨[⟨0, "a", "b"⟩], 1⟩ (.valid 5)).observed =
      some ⟨404, .messageOnly "work not found"⟩ ∧
    (deleteWorkHandler ⟨[⟨0, "a", "b"⟩], 1⟩ (.valid 5)).store =
      ⟨[⟨0, "a", "b"⟩], 1⟩ :=
  ⟨(c3_delete_missing_observes_404 ⟨[⟨0, "a", "b"⟩], 1⟩ 5 rfl).1,
   (c3_delete_missing_observes_404 ⟨[⟨0, "a", "b"⟩], 1⟩ 5 rfl).2.1⟩

/-- C10: on DELETE of a valid absent id the handler sends the 404 but does
not return: the trace shows `findByIdAndDelete` still executed, and the
handler then attempts a second, 200 response, whose failure (headers already
sent) routes through the catch block whose own 500 attempt escapes
uncaught. -/
theorem c10_delete_missing_second_send (s : Store) (n : Nat)
    (h : s.items.find? (matchesId n) = none) :
    deleteWorkHandler s (.valid n) =
      ⟨s, [⟨404, .messageOnly "work not found"⟩,
           ⟨200, .messageWork "work deleted" none⟩,
           ⟨500, .messageOnly "unable to delete work"⟩],
       [.findById (.valid n), .findByIdAndDelete (.valid n)], true⟩ :=
  deleteWorkHandler_missing s n h

/-- Witness for C10 at the empty store with id 0. -/
theorem c10_witness :
    deleteWorkHandler ⟨[], 0⟩ (.valid 0) =
      ⟨⟨[], 0⟩, [⟨404, .messageOnly "work not found"⟩,
           ⟨200, .messageWork "work deleted" none⟩,
           ⟨500, .messageOnly "unable to delete work"⟩],
       [.findById (.valid 0), .findByIdAndDelete (.valid 0)], true⟩ :=
  c10_delete_missing_second_send ⟨[], 0⟩ 0 rfl

/-- C2: PUT on a stored item responds 200 with the pre-update snapshot (the
document `findByIdAndUpdate` returns precedes the update), yet the store
afterwards holds the new title and description, so a subsequent GET-by-id
responds 200 with the new values. -/
theorem c2_put_stale_body_fresh_store (s : Store) (n : Nat) (w : WorkItem)
    (t d : String) (h : s.items.find? (matchesId n) = some w) :
    (putWorkHandler s (.valid n) (some t) (some d)).attempts =
      [⟨200, .item (some w)⟩] ∧
    (putWorkHandler s (.valid n) (some t) (some d)).store.items.find?
        (matchesId n) = some ⟨w.id, t, d⟩ ∧
    (getWorkByIdHandler (putWorkHandler s (.valid n) (some t) (some d)).store
        (.valid n)).attempts = [⟨200, .item (some ⟨w.id, t, d⟩)⟩] := by
  have hid : ∀ a, matchesId n (applyBody (some t) (some d) a) = matchesId n a :=
    fun a => rfl
  have hput : putWorkHandler s (.valid n) (some t) (some d) =
      ⟨⟨updateFirst (matchesId n) (applyBody (some t) (some d)) s.items,
        s.nextId⟩, [⟨200, .item (some w)⟩],
       [.findById (.valid n), .findByIdAndUpdate (.valid n), .docSave],
       false⟩ := by
    simp [putWorkHandler, Work.findById, Work.findByIdAndUpdate, h]
  have hfind : (updateFirst (matchesId n) (applyBody (some t) (some d))
      s.items).find? (matchesId n) = some ⟨w.id, t, d⟩ := by
    rw [find?_updateFirst _ _ hid, h]
    rfl
  refine ⟨by rw [hput], ?_, ?_⟩
  · rw [hput]
    exact hfind
  · rw [hput]
    simp [getWorkByIdHandler, Work.findById, hfind]

/-- Witness for C2 at a one-element store, replacing both fields of item 0. -/
theorem c2_witness :
    (putWorkHandler ⟨[⟨0, "a", "b"⟩], 1⟩ (.valid 0) (some "t2")
        (some "d2")).attempts = [⟨200, .item (some ⟨0, "a", "b"⟩)⟩] ∧
    (getWorkByIdHandler (putWorkHandler ⟨[⟨0, "a", "b"⟩], 1⟩ (.valid 0)
        (some "t2") (some "d2")).store (.valid 0)).attempts =
      [⟨200, .item (some ⟨0, "t2", "d2"⟩)⟩] :=
  ⟨(c2_put_stale_body_fresh_store ⟨[⟨0, "a", "b"⟩], 1⟩ 0 ⟨0, "a", "b"⟩
      "t2" "d2" rfl).1,
   (c2_put_stale_body_fresh_store ⟨[⟨0, "a", "b"⟩], 1⟩ 0 ⟨0, "a", "b"⟩
      "t2" "d2" rfl).2.2⟩

/-- C4: creating with a missing title or missing description fails: the save
throws a validation error, the handler responds 500 with the fixed message,
and the store is unchanged. -/
theorem c4_create_missing_field_500 (s : Store) (t d : Option String)
    (h : t = none ∨ d = none) :
    Work.saveNew s t d = .error .validationError ∧
    postWorkHandler s t d =
      ⟨s, [⟨500, .messageOnly "unable to create new work"⟩],
       [.saveNew], false⟩ := by
  rcases h with h | h
  · subst h
    cases d <;> exact ⟨rfl, rfl⟩
  · subst h
    cases t <;> exact ⟨rfl, rfl⟩

/-- Witness for C4: a body with a description but no title is rejected. -/
theorem c4_witness :
    Work.saveNew ⟨[], 0⟩ none (some "d") = .error .validationError ∧
    postWorkHandler ⟨[], 0⟩ none (some "d") =
      ⟨⟨[], 0⟩, [⟨500, .messageOnly "unable to create new work"⟩],
       [.saveNew], false⟩ :=
  c4_create_missing_field_500 ⟨[], 0⟩ none (some "d") (Or.inl rfl)

/-- Counterexample to C5 as stated: a create request whose body contains
both fields, the title being the empty string, is answered 500 with nothing
stored — the required validator rejects empty strings — not 200 with a
persisted item. -/
theorem c5_counterexample :
    postWorkHandler ⟨[], 0⟩ (some "") (some "d") =
      ⟨⟨[], 0⟩, [⟨500, .messageOnly "unable to create new work"⟩],
       [.saveNew], false⟩ :=
  rfl

/-- C5 (amended): creating with both fields present as non-empty strings
responds 200 with the newly persisted item, which carries the freshly
assigned identifier: the store counter, which differs from every
already-stored identifier whenever the counter bounds them. -/
theorem c5_create_success_fresh_id (s : Store) (t d : String)
    (ht : t ≠ "") (hd : d ≠ "") :
    postWorkHandler s (some t) (some d) =
      ⟨⟨s.items ++ [⟨s.nextId, t, d⟩], s.nextId + 1⟩,
       [⟨200, .messageWork "new work created" (some ⟨s.nextId, t, d⟩)⟩],
       [.saveNew], false⟩ ∧
    ((∀ w ∈ s.items, w.id < s.nextId) →
      s.nextId ∉ s.items.map WorkItem.id) := by
  refine ⟨?_, ?_⟩
  · simp [postWorkHandler, saveNew_ok s t d ht hd]
  · intro hf hmem
    rcases List.mem_map.mp hmem with ⟨w, hw, hid⟩
    have := hf w hw
    omega

/-- Witness for C5 at a one-element store whose counter bounds its ids. -/
theorem c5_witness :
    postWorkHandler ⟨[⟨0, "x", "y"⟩], 1⟩ (some "t") (some "d") =
      ⟨⟨[⟨0, "x", "y"⟩, ⟨1, "t", "d"⟩], 2⟩,
       [⟨200, .messageWork "new work created" (some ⟨1, "t", "d"⟩)⟩],
       [.saveNew], false⟩ ∧
    (1 : Nat) ∉ ([⟨0, "x", "y"⟩] : List WorkItem).map WorkItem.id :=
  ⟨(c5_create_success_fresh_id ⟨[⟨0, "x", "y"⟩], 1⟩ "t" "d"
      (by decide) (by decide)).1,
   (c5_create_success_fresh_id ⟨[⟨0, "x", "y"⟩], 1⟩ "t" "d"
      (by decide) (by decide)).2 (by simp)⟩

/-- C6: after a successful create (both fields non-empty, so the required
validator passes), listing responds 200 with the documents in store order,
the new item appearing exactly once (its fresh id keeps it out of the
earlier items); on an empty store the listing is the empty sequence. -/
theorem c6_list_after_create (s : Store) (t d : String)
    (ht : t ≠ "") (hd : d ≠ "")
    (hfresh : ∀ w ∈ s.items, w.id < s.nextId) :
    getWorksHandler (postWorkHandler s (some t) (some d)).store =
      ⟨(postWorkHandler s (some t) (some d)).store,
       [⟨200, .items (s.items ++ [⟨s.nextId, t, d⟩])⟩], [.findAll], false⟩ ∧
    List.count (⟨s.nextId, t, d⟩ : WorkItem)
      (s.items ++ [(⟨s.nextId, t, d⟩ : WorkItem)]) = 1 ∧
    ∀ k : Nat, getWorksHandler ⟨[], k⟩ =
      ⟨⟨[], k⟩, [⟨200, .items []⟩], [.findAll], false⟩ := by
  refine ⟨?_, ?_, fun k => rfl⟩
  · simp [getWorksHandler, Work.find, postWorkHandler, saveNew_ok s t d ht hd]
  have hnot : (⟨s.nextId, t, d⟩ : WorkItem) ∉ s.items := by
    intro hmem
    have := hfresh _ hmem
    simp at this
  rw [List.count_append, List.count_eq_zero.mpr hnot]
  simp

/-- Witness for C6: creating into a one-element store lists both items, the
new one exactly once. -/
theorem c6_witness :
    getWorksHandler (postWorkHandler ⟨[⟨0, "a", "b"⟩], 1⟩ (some "t")
        (some "d")).store =
      ⟨(postWorkHandler ⟨[⟨0, "a", "b"⟩], 1⟩ (some "t") (some "d")).store,
       [⟨200, .items [⟨0, "a", "b"⟩, ⟨1, "t", "d"⟩]⟩], [.findAll], false⟩ ∧
    List.count (⟨1, "t", "d"⟩ : WorkItem)
      ([⟨0, "a", "b"⟩, ⟨1, "t", "d"⟩] : List WorkItem) = 1 :=
  ⟨(c6_list_after_create ⟨[⟨0, "a", "b"⟩], 1⟩ "t" "d" (by decide) (by decide)
      (by simp)).1,
   (c6_list_after_create ⟨[⟨0, "a", "b"⟩], 1⟩ "t" "d" (by decide) (by decide)
      (by simp)).2.1⟩

/-- One PUT request, whatever its id and body, preserves every stored
identifier (in order) and the fresh-id counter. -/
lemma putWorkHandler_preserves_ids (s : Store) (i : ReqId)
    (t d : Option String) :
    (putWorkHandler s i t d).store.items.map WorkItem.id =
      s.items.map WorkItem.id ∧
    (putWorkHandler s i t d).store.nextId = s.nextId := by
  cases i with
  | malformed str => exact ⟨rfl, rfl⟩
  | valid n =>
    cases hf : s.items.find? (matchesId n) with
    | none => simp [putWorkHandler, Work.findById, hf]
    | some w =>
      have hm : (updateFirst (matchesId n) (applyBody t d) s.items).map
          WorkItem.id = s.items.map WorkItem.id :=
        map_updateFirst WorkItem.id (matchesId n) (applyBody t d)
          (fun a => rfl) s.items
      refine ⟨?_, ?_⟩ <;>
        simp [putWorkHandler, Work.findById, Work.findByIdAndUpdate, hf, hm]

/-- A PUT request as a store transformer, for iterating sequences of
updates. -/
def applyPut (s : Store) (r : ReqId × Option String × Option String) :
    Store :=
  (putWorkHandler s r.1 r.2.1 r.2.2).store

/-- C7: under any sequence of PUT requests the sequence of stored
identifiers is unchanged (only title and description can change, the items
being triples of id, title and description), and creation is the only place
an id is assigned: a save that passes validation appends the item with the
counter as its id. -/
theorem c7_ids_immutable_under_puts (s : Store)
    (rs : List (ReqId × Option String × Option String)) :
    ((rs.foldl applyPut s).items.map WorkItem.id =
        s.items.map WorkItem.id ∧
     (rs.foldl applyPut s).nextId = s.nextId) ∧
    ∀ t d : String, t ≠ "" → d ≠ "" →
      Work.saveNew s (some t) (some d) =
        .ok (⟨s.items ++ [⟨s.nextId, t, d⟩], s.nextId + 1⟩,
             ⟨s.nextId, t, d⟩) := by
  refine ⟨?_, fun t d ht hd => saveNew_ok s t d ht hd⟩
  induction rs generalizing s with
  | nil => exact ⟨rfl, rfl⟩
  | cons r rs ih =>
    have h1 := putWorkHandler_preserves_ids s r.1 r.2.1 r.2.2
    have h2 := ih (applyPut s r)
    rw [List.foldl_cons]
    exact ⟨h2.1.trans h1.1, h2.2.trans h1.2⟩

/-- Witness for C7: one PUT over a one-element store keeps the id sequence,
and a validated save at that store assigns the counter as the id. -/
theorem c7_witness :
    (([((ReqId.valid 0 : ReqId), (some "t2" : Option String),
        (some "d2" : Option String))].foldl applyPut
      ⟨[⟨0, "a", "b"⟩], 1⟩).items.map WorkItem.id =
      List.map WorkItem.id [⟨0, "a", "b"⟩]) ∧
    Work.saveNew ⟨[⟨0, "a", "b"⟩], 1⟩ (some "t") (some "d") =
      .ok (⟨[⟨0, "a", "b"⟩, ⟨1, "t", "d"⟩], 2⟩, ⟨1, "t", "d"⟩) :=
  ⟨(c7_ids_immutable_under_puts ⟨[⟨0, "a", "b"⟩], 1⟩
      [(.valid 0, some "t2", some "d2")]).1.1,
   (c7_ids_immutable_under_puts ⟨[⟨0, "a", "b"⟩], 1⟩ []).2 "t" "d"
     (by decide) (by decide)⟩

/-- Is a response status one of 200, 404 and 500. -/
def statusOk (r : Response) : Bool :=
  r.status == 200 || r.status == 404 || r.status == 500

/-- C8: every response any of the five handlers attempts, on any store and
request, has status 200, 404 or 500, and a creation that passes validation
is observed as a 200 (not a 201) carrying the new item. -/
theorem c8_status_set (s : Store) (i : ReqId) (t d : Option String) :
    ((getWorksHandler s).attempts.all statusOk = true ∧
     (getWorkByIdHandler s i).attempts.all statusOk = true ∧
     (postWorkHandler s t d).attempts.all statusOk = true ∧
     (putWorkHandler s i t d).attempts.all statusOk = true ∧
     (deleteWorkHandler s i).attempts.all statusOk = true) ∧
    ∀ t0 d0 : String, t0 ≠ "" → d0 ≠ "" →
      (postWorkHandler s (some t0) (some d0)).observed =
        some ⟨200, .messageWork "new work created"
          (some ⟨s.nextId, t0, d0⟩)⟩ := by
  refine ⟨⟨rfl, ?_, ?_, ?_, ?_⟩, fun t0 d0 ht hd => ?_⟩
  case refine_5 =>
    simp [postWorkHandler, saveNew_ok s t0 d0 ht hd, HandlerResult.observed]
  · cases i with
    | malformed str => rfl
    | valid n =>
      cases hf : s.items.find? (matchesId n) <;>
        simp [getWorkByIdHandler, Work.findById, hf, statusOk]
  · cases t with
    | none => rfl
    | some t1 =>
      cases d with
      | none => rfl
      | some d1 =>
        by_cases hc : (t1.length == 0 || d1.length == 0) = true
        · simp [postWorkHandler, Work.saveNew, hc, statusOk]
        · simp only [Bool.not_eq_true] at hc
          simp [postWorkHandler, Work.saveNew, hc, statusOk]
  · cases i with
    | malformed str => rfl
    | valid n =>
      cases hf : s.items.find? (matchesId n) <;>
        simp [putWorkHandler, Work.findById, Work.findByIdAndUpdate, hf,
              statusOk]
  · cases i with
    | malformed str => rfl
    | valid n =>
      cases hf : s.items.find? (matchesId n) <;>
        simp [deleteWorkHandler, Work.findById, Work.findByIdAndDelete, hf,
              statusOk]

/-- Witness for C8: a validated creation at the empty store is observed as a
200 carrying the new item. -/
theorem c8_witness :
    (postWorkHandler ⟨[], 0⟩ (some "t") (some "d")).observed =
      some ⟨200, .messageWork "new work created" (some ⟨0, "t", "d"⟩)⟩ :=
  (c8_status_set ⟨[], 0⟩ (.valid 0) none none).2 "t" "d"
    (by decide) (by decide)

end SwaggerDocs
